import Mathlib

/-!
Verification development for the `embedded-can-mock` crate: an in-memory mock
of a shared CAN bus.  The Rust source (src/frame.rs, src/filter.rs, src/bus.rs)
is shallowly embedded below.  Heap-allocated, reference-counted entities
(`Arc<Mutex<MockBus>>`, `Arc<Mutex<MockInterface>>`) are modelled by a `World`
record holding a store of buses and a store of interfaces, addressed by natural
numbers; an operation that in Rust mutates state behind a handle becomes a
function from `World` to `World` (paired with the operation's return value).
Weak references (`Weak<Mutex<MockBus>>`) are modelled by an `alive` flag on
each bus: `Weak::upgrade` succeeds exactly while the referent is alive, and
dropping the last `BusHandle` (interfaces hold only weak back-references, so
the bus is then deallocated) is the `dropBus` operation.
-/

namespace CanMock

/-- CAN identifier (`embedded_can::Id`): Standard (11-bit) or Extended (29-bit).
The raw value is modelled as `Nat`; `StandardId::new` / `ExtendedId::new`
enforce the range bounds, which no claim here depends on. -/
inductive Id where
  | Standard : Nat → Id
  | Extended : Nat → Id
deriving DecidableEq, Repr

/-- Identifier mask (`embedded_can_interface::IdMask`). -/
inductive IdMask where
  | Standard : Nat → IdMask
  | Extended : Nat → IdMask
deriving DecidableEq, Repr

/-- Acceptance filter (`embedded_can_interface::IdMaskFilter`). -/
structure IdMaskFilter where
  id : Id
  mask : IdMask
deriving DecidableEq, Repr

/-- Tag of an identifier: `true` for Extended, `false` for Standard. -/
def Id.isExtendedTag : Id → Bool
  | Id.Standard _ => false
  | Id.Extended _ => true

/-- Raw numeric value of an identifier. -/
def Id.raw : Id → Nat
  | Id.Standard n => n
  | Id.Extended n => n

/-- Tag of a mask: `true` for Extended, `false` for Standard. -/
def IdMask.isExtendedTag : IdMask → Bool
  | IdMask.Standard _ => false
  | IdMask.Extended _ => true

/-- Raw numeric value of a mask. -/
def IdMask.raw : IdMask → Nat
  | IdMask.Standard n => n
  | IdMask.Extended n => n

/-- Error type of filter validation (src/filter.rs `FilterError`). -/
inductive FilterError where
  | KindMismatch
deriving DecidableEq, Repr

/-- src/filter.rs `matches`: does `filter` accept the identifier `match_id`?
The bitwise AND on `u16`/`u32` raw values is `Nat.land` (AND never overflows). -/
def filter_matches (filter : IdMaskFilter) (match_id : Id) : Bool :=
  match filter.id, filter.mask, match_id with
  | Id.Standard fid, IdMask.Standard mask, Id.Standard id =>
      Nat.land id mask == Nat.land fid mask
  | Id.Extended fid, IdMask.Extended mask, Id.Extended id =>
      Nat.land id mask == Nat.land fid mask
  | _, _, _ => false

/-- src/filter.rs `validate_filter`: a filter is valid iff its `id` and `mask`
have the same kind. -/
def validate_filter (filter : IdMaskFilter) : Except FilterError Unit :=
  match filter.id, filter.mask with
  | Id.Standard _, IdMask.Standard _ => Except.ok ()
  | Id.Extended _, IdMask.Extended _ => Except.ok ()
  | _, _ => Except.error FilterError.KindMismatch

/-- src/filter.rs `validate_filters`: validate every filter of a list,
returning the first error. -/
def validate_filters : List IdMaskFilter → Except FilterError Unit
  | [] => Except.ok ()
  | f :: rest =>
    match validate_filter f with
    | Except.error e => Except.error e
    | Except.ok _ => validate_filters rest

/-- Spec-side restatement of the matching condition, written from the spec's
words ("true iff `candidate_id` has the same tag as the filter's `id`/`mask`,
and `(candidate_id.raw & mask.raw) == (filter.id.raw & mask.raw)`"), to be
compared against the source-derived `matches`. -/
def matchesSpec (filter : IdMaskFilter) (candidate : Id) : Bool :=
  (candidate.isExtendedTag == filter.id.isExtendedTag)
    && (candidate.isExtendedTag == filter.mask.isExtendedTag)
    && (Nat.land candidate.raw filter.mask.raw == Nat.land filter.id.raw filter.mask.raw)

/-- src/frame.rs `MockFrameType`: data payload or remote request. -/
inductive MockFrameType where
  | Standard : List Nat → MockFrameType
  | Remote : Nat → MockFrameType
deriving DecidableEq, Repr

/-- src/frame.rs `MockFrame`: an in-memory CAN frame. -/
structure MockFrame where
  frame_type : MockFrameType
  id : Id
deriving DecidableEq, Repr

/-- src/frame.rs `MockFrame::new` (the `embedded_can::Frame` impl): always
`Some`, storing the whole payload. -/
def MockFrame.new (id : Id) (data : List Nat) : Option MockFrame :=
  some { frame_type := MockFrameType.Standard data, id := id }

/-- src/frame.rs `MockFrame::new_remote`: always `Some`, storing the dlc. -/
def MockFrame.new_remote (id : Id) (dlc : Nat) : Option MockFrame :=
  some { frame_type := MockFrameType.Remote dlc, id := id }

/-- src/bus.rs `TransmitError`. -/
inductive TransmitError where
  | BusNotAttached
deriving DecidableEq, Repr

/-- src/bus.rs `MockInterfaceError`. -/
inductive MockInterfaceError where
  | BusAlreadyAttached
  | BusNotAttached
  | InvalidFilters
deriving DecidableEq, Repr

/-- src/bus.rs `MockInterface`: filter list, receive queue (front = oldest),
and the weak reference to the attached bus (`none` = `Weak::new()`, i.e. the
interface was never attached; `some b` = downgraded reference to bus `b`,
live only while bus `b` is). The condvar carries no state worth modelling. -/
structure MockInterface where
  filters : List IdMaskFilter
  bus : Option Nat
  received_frames : List MockFrame
deriving DecidableEq, Repr

instance : Inhabited MockInterface := ⟨⟨[], none, []⟩⟩

/-- src/bus.rs `MockBus`: the registry of attached interfaces, in attach
order, plus the liveness flag modelling whether any strong reference
(`BusHandle`) still exists.  A deallocated bus is the default value. -/
structure MockBus where
  interfaces : List Nat
  alive : Bool
deriving DecidableEq, Repr

instance : Inhabited MockBus := ⟨⟨[], false⟩⟩

/-- The heap: all buses and interfaces ever allocated, with allocation
counters. -/
structure World where
  busCount : Nat
  buses : Nat → MockBus
  ifaceCount : Nat
  ifaces : Nat → MockInterface

/-- The world with no allocations. -/
def emptyWorld : World :=
  { busCount := 0, buses := fun _ => default, ifaceCount := 0, ifaces := fun _ => default }

/-- Store interface `i`. -/
def setIface (w : World) (i : Nat) (int : MockInterface) : World :=
  { w with ifaces := fun k => if k = i then int else w.ifaces k }

/-- Store bus `b`. -/
def setBus (w : World) (b : Nat) (bus : MockBus) : World :=
  { w with buses := fun k => if k = b then bus else w.buses k }

/-- src/bus.rs `BusHandle::new`: allocate a fresh, empty, live bus and return
its address. -/
def newBus (w : World) : Nat × World :=
  (w.busCount,
    { setBus w w.busCount { interfaces := [], alive := true } with busCount := w.busCount + 1 })

/-- Dropping the last `BusHandle` to bus `b`: interfaces hold only weak
back-references, so the `MockBus` is deallocated (its registry vanishes and
later `Weak::upgrade` calls return `None`). -/
def dropBus (w : World) (b : Nat) : World :=
  setBus w b default

/-- src/bus.rs `InterfaceHandle::new_unattached` / `MockInterface::new`:
allocate a fresh interface with the given filters, an empty queue and a
never-attached (`Weak::new()`) bus reference. -/
def new_unattached (w : World) (filters : List IdMaskFilter) : Nat × World :=
  (w.ifaceCount,
    { setIface w w.ifaceCount { filters := filters, bus := none, received_frames := [] } with
        ifaceCount := w.ifaceCount + 1 })

/-- Semantics of `Weak::upgrade` on an interface's bus reference: yields the bus address
iff the reference was set and the bus is still alive. -/
def busUpgrade (w : World) (ref : Option Nat) : Option Nat :=
  match ref with
  | none => none
  | some b => if (w.buses b).alive then some b else none

/-- src/bus.rs `MockInterface::attach_to_bus`: error if the weak bus reference
still upgrades, otherwise push this interface onto the bus registry and store
the downgraded bus reference.  The caller holds an `Arc` to bus `bid`
(a `BusHandle`), so in any run of the Rust code `(w.buses bid).alive = true`
when this is called; theorems state that as a hypothesis where it matters. -/
def attach_to_bus (w : World) (iid bid : Nat) : Option MockInterfaceError × World :=
  let int := w.ifaces iid
  match busUpgrade w int.bus with
  | some _ => (some MockInterfaceError.BusAlreadyAttached, w)
  | none =>
    let b := w.buses bid
    let w1 := setBus w bid { b with interfaces := b.interfaces ++ [iid] }
    (none, setIface w1 iid { int with bus := some bid })

/-- The loop condition of src/bus.rs `MockBus::transmit`: deliver if the
filter list is empty, else if any filter matches the frame's id. -/
def should_receive (int : MockInterface) (frame : MockFrame) : Bool :=
  if int.filters.isEmpty then true
  else int.filters.any (fun filter => filter_matches filter frame.id)

/-- One iteration of the fan-out loop of src/bus.rs `MockBus::transmit`:
push a copy of the frame onto interface `iid`'s queue if it should receive. -/
def deliverTo (frame : MockFrame) (w : World) (iid : Nat) : World :=
  let int := w.ifaces iid
  if should_receive int frame then
    setIface w iid { int with received_frames := int.received_frames ++ [frame] }
  else w

/-- src/bus.rs `MockBus::transmit`: fan the frame out over the registry in
attach order. -/
def MockBus.transmit (w : World) (bid : Nat) (frame : MockFrame) : World :=
  (w.buses bid).interfaces.foldl (deliverTo frame) w

/-- src/bus.rs `MockInterface::transmit_arc` (the body of
`InterfaceHandle::transmit`): upgrade the bus reference; if dead or never
set, fail with `BusNotAttached`, else run the bus fan-out. -/
def transmit_arc (w : World) (iid : Nat) (frame : MockFrame) : Option TransmitError × World :=
  match busUpgrade w (w.ifaces iid).bus with
  | some bid => (none, MockBus.transmit w bid frame)
  | none => (some TransmitError.BusNotAttached, w)

/-- src/bus.rs `BusHandle::add_interface`: validate the filters, construct a
detached interface, attach it to this bus.  On a validation error nothing is
allocated; on an attach error (unreachable for a fresh interface) the
constructed interface is dropped again. -/
def add_interface (w : World) (bid : Nat) (filters : List IdMaskFilter) :
    Except MockInterfaceError Nat × World :=
  match validate_filters filters with
  | Except.error _ => (Except.error MockInterfaceError.InvalidFilters, w)
  | Except.ok _ =>
    let alloc := new_unattached w filters
    match attach_to_bus alloc.2 alloc.1 bid with
    | (some e, _) => (Except.error e, w)
    | (none, w2) => (Except.ok alloc.1, w2)

/-- src/bus.rs `BusHandle::interface_count`. -/
def interface_count (w : World) (bid : Nat) : Nat :=
  (w.buses bid).interfaces.length

/-- src/bus.rs `InterfaceHandle::set_filters`: validate, then replace the
filter list; on a validation error the interface is never touched. -/
def set_filters (w : World) (iid : Nat) (filters : List IdMaskFilter) :
    Option FilterError × World :=
  match validate_filters filters with
  | Except.error e => (some e, w)
  | Except.ok _ =>
    let int := w.ifaces iid
    (none, setIface w iid { int with filters := filters })

/-- src/bus.rs `InterfaceHandle::pop_frame`: `VecDeque::pop_front`. -/
def pop_frame (w : World) (iid : Nat) : Option MockFrame × World :=
  let int := w.ifaces iid
  match int.received_frames with
  | [] => (none, w)
  | f :: rest => (some f, setIface w iid { int with received_frames := rest })

/-- src/bus.rs `InterfaceHandle::received_frames`: clone the whole queue,
mutating nothing. -/
def received_frames (w : World) (iid : Nat) : List MockFrame × World :=
  ((w.ifaces iid).received_frames, w)

/-- Repeatedly `pop_frame`, at most `fuel` times, collecting the returned
frames in order. -/
def drainFuel : Nat → World → Nat → List MockFrame
  | 0, _, _ => []
  | Nat.succ n, w, iid =>
    match pop_frame w iid with
    | (none, _) => []
    | (some f, w1) => f :: drainFuel n w1 iid

/-- The sequence of frames successive `pop_frame` calls would return, in
order, until the queue is empty. -/
def drain (w : World) (iid : Nat) : List MockFrame :=
  drainFuel (w.ifaces iid).received_frames.length w iid

/-- Concrete run refuting C5 as stated: interface 0 successfully attaches to
bus 0, the last handle to bus 0 is dropped (the bus is deallocated), a fresh
bus 1 is created — and the second attach call on interface 0 succeeds. -/
def c5World0 : World := (newBus emptyWorld).2

def c5World1 : World := (new_unattached c5World0 []).2

def c5Attach1 : Option MockInterfaceError × World := attach_to_bus c5World1 0 0

def c5World2 : World := (newBus (dropBus c5Attach1.2 0)).2

def c5Attach2 : Option MockInterfaceError × World := attach_to_bus c5World2 0 1

/-- A concrete data frame with standard id `0x123`. -/
def fA : MockFrame := { frame_type := MockFrameType.Standard [0xAA], id := Id.Standard 0x123 }

/-- A concrete data frame with standard id `0x321`. -/
def fB : MockFrame := { frame_type := MockFrameType.Standard [0xBB], id := Id.Standard 0x321 }

/-- A filter whose id and mask kinds disagree (invalid). -/
def badFilter : IdMaskFilter := { id := Id.Standard 1, mask := IdMask.Extended 2 }

/-- A well-formed standard filter. -/
def goodFilter : IdMaskFilter := { id := Id.Standard 0x123, mask := IdMask.Standard 0x7FF }

/-- Concrete world: one live bus with two attached interfaces, both with
empty filter lists and empty queues. -/
def wTwo : World :=
  { busCount := 1
  , buses := fun b => if b = 0 then { interfaces := [0, 1], alive := true } else default
  , ifaceCount := 2
  , ifaces := fun i =>
      if i = 0 then { filters := [], bus := some 0, received_frames := [] }
      else if i = 1 then { filters := [], bus := some 0, received_frames := [] }
      else default }

/-- Concrete world: one live empty bus (index 0) and one detached interface
(index 0). -/
def wAtt : World := (new_unattached (newBus emptyWorld).2 []).2

/-- Concrete world: a single never-attached interface. -/
def wUn : World := (new_unattached emptyWorld []).2

/-- Concrete world: one live empty bus. -/
def wBus : World := (newBus emptyWorld).2

/-- Concrete world: one interface whose queue already holds `[fA, fB]`. -/
def wQ : World :=
  { emptyWorld with
      ifaceCount := 1
      , ifaces := fun i =>
          if i = 0 then { filters := [], bus := none, received_frames := [fA, fB] }
          else default }

theorem setIface_ifaces_self (w : World) (i : Nat) (int : MockInterface) :
    (setIface w i int).ifaces i = int := by
  simp [setIface]

theorem setIface_ifaces_ne (w : World) (i : Nat) (int : MockInterface) (j : Nat) (h : j ≠ i) :
    (setIface w i int).ifaces j = w.ifaces j := by
  simp [setIface, h]

theorem setIface_buses (w : World) (i : Nat) (int : MockInterface) :
    (setIface w i int).buses = w.buses := rfl

theorem setBus_buses_self (w : World) (b : Nat) (bus : MockBus) :
    (setBus w b bus).buses b = bus := by
  simp [setBus]

theorem setBus_buses_ne (w : World) (b : Nat) (bus : MockBus) (c : Nat) (h : c ≠ b) :
    (setBus w b bus).buses c = w.buses c := by
  simp [setBus, h]

theorem setBus_ifaces (w : World) (b : Nat) (bus : MockBus) :
    (setBus w b bus).ifaces = w.ifaces := rfl

/-- C2: `matches` returns true iff the candidate's tag agrees with both the
filter id's and the filter mask's tag and the masked raw values coincide;
mismatched tags yield `false` (and, being a total `Bool` function, `matches`
never signals an error). -/
theorem matches_eq_matchesSpec (filter : IdMaskFilter) (candidate : Id) :
    filter_matches filter candidate = matchesSpec filter candidate := by
  obtain ⟨fid, fmask⟩ := filter
  cases fid <;> cases fmask <;> cases candidate <;>
    simp [filter_matches, matchesSpec, Id.isExtendedTag, IdMask.isExtendedTag, Id.raw, IdMask.raw]

theorem should_receive_congr {a b : MockInterface} (frame : MockFrame)
    (h : a.filters = b.filters) : should_receive a frame = should_receive b frame := by
  unfold should_receive
  rw [h]

theorem deliverTo_ifaces_ne (frame : MockFrame) (w : World) (iid j : Nat) (h : j ≠ iid) :
    (deliverTo frame w iid).ifaces j = w.ifaces j := by
  unfold deliverTo
  by_cases hr : should_receive (w.ifaces iid) frame
  · simp [hr, setIface_ifaces_ne _ _ _ _ h]
  · simp [hr]

theorem deliverTo_queue_self (frame : MockFrame) (w : World) (iid : Nat) :
    ((deliverTo frame w iid).ifaces iid).received_frames =
      if should_receive (w.ifaces iid) frame
      then (w.ifaces iid).received_frames ++ [frame]
      else (w.ifaces iid).received_frames := by
  unfold deliverTo
  by_cases hr : should_receive (w.ifaces iid) frame
  · simp [hr, setIface_ifaces_self]
  · simp [hr]

theorem deliverTo_filters (frame : MockFrame) (w : World) (iid j : Nat) :
    ((deliverTo frame w iid).ifaces j).filters = (w.ifaces j).filters := by
  by_cases hj : j = iid
  · subst hj
    unfold deliverTo
    by_cases hr : should_receive (w.ifaces j) frame
    · simp [hr, setIface_ifaces_self]
    · simp [hr]
  · rw [deliverTo_ifaces_ne frame w iid j hj]

theorem foldl_deliverTo_spec (frame : MockFrame) :
    ∀ (ints : List Nat) (w : World), ints.Nodup → ∀ iid : Nat,
      ((ints.foldl (deliverTo frame) w).ifaces iid).received_frames =
        if iid ∈ ints ∧ should_receive (w.ifaces iid) frame = true
        then (w.ifaces iid).received_frames ++ [frame]
        else (w.ifaces iid).received_frames := by
  intro ints
  induction ints with
  | nil =>
    intro w _ iid
    simp
  | cons j rest ih =>
    intro w hnd iid
    rw [List.nodup_cons] at hnd
    have hrec := ih (deliverTo frame w j) hnd.2 iid
    rw [List.foldl_cons]
    by_cases hij : iid = j
    · subst hij
      have hnotin : iid ∉ rest := hnd.1
      rw [hrec]
      rw [if_neg (by simp [hnotin])]
      rw [deliverTo_queue_self]
      by_cases hr : should_receive (w.ifaces iid) frame = true
      · rw [if_pos hr, if_pos ⟨List.mem_cons_self iid rest, hr⟩]
      · rw [if_neg hr, if_neg (by rintro ⟨_, h2⟩; exact hr h2)]
    · have hsame : (deliverTo frame w j).ifaces iid = w.ifaces iid :=
        deliverTo_ifaces_ne frame w j iid hij
      rw [hrec, hsame]
      by_cases hmem : iid ∈ rest ∧ should_receive (w.ifaces iid) frame = true
      · rw [if_pos hmem, if_pos ⟨List.mem_cons_of_mem j hmem.1, hmem.2⟩]
      · rw [if_neg hmem]
        rw [if_neg (by
          rintro ⟨hin, hr⟩
          rcases List.mem_cons.mp hin with hin | hin
          · exact hij hin
          · exact hmem ⟨hin, hr⟩)]

/-- C1: one `MockBus::transmit` appends exactly one copy of the frame to the
queue of every interface in the bus registry whose filter list is empty or
contains a matching filter, and leaves the queue of every other interface
(filtered out or unregistered) unchanged; in particular with all filter lists
empty every registered interface gains exactly the transmitted frame.  The
registry holds no duplicates (attachment is exclusive), stated as the
`Nodup` hypothesis. -/
theorem transmit_fanout (w : World) (bid : Nat) (frame : MockFrame)
    (hnd : (w.buses bid).interfaces.Nodup) (iid : Nat) :
    ((MockBus.transmit w bid frame).ifaces iid).received_frames =
      if iid ∈ (w.buses bid).interfaces ∧ should_receive (w.ifaces iid) frame = true
      then (w.ifaces iid).received_frames ++ [frame]
      else (w.ifaces iid).received_frames :=
  foldl_deliverTo_spec frame (w.buses bid).interfaces w hnd iid

theorem validate_filter_error_iff (f : IdMaskFilter) :
    validate_filter f = Except.error FilterError.KindMismatch ↔
      f.id.isExtendedTag ≠ f.mask.isExtendedTag := by
  obtain ⟨fid, fmask⟩ := f
  cases fid <;> cases fmask <;>
    simp [validate_filter, Id.isExtendedTag, IdMask.isExtendedTag]

theorem validate_filter_ok_iff (f : IdMaskFilter) :
    validate_filter f = Except.ok () ↔ f.id.isExtendedTag = f.mask.isExtendedTag := by
  obtain ⟨fid, fmask⟩ := f
  cases fid <;> cases fmask <;>
    simp [validate_filter, Id.isExtendedTag, IdMask.isExtendedTag]

theorem validate_filters_error_iff (fs : List IdMaskFilter) :
    validate_filters fs = Except.error FilterError.KindMismatch ↔
      ∃ f ∈ fs, f.id.isExtendedTag ≠ f.mask.isExtendedTag := by
  induction fs with
  | nil => simp [validate_filters]
  | cons f rest ih =>
    unfold validate_filters
    cases hf : validate_filter f with
    | error e =>
      cases e
      simp only []
      constructor
      · intro _
        exact ⟨f, List.mem_cons_self f rest, (validate_filter_error_iff f).mp hf⟩
      · intro _
        trivial
    | ok u =>
      cases u
      have hval : f.id.isExtendedTag = f.mask.isExtendedTag :=
        (validate_filter_ok_iff f).mp hf
      simp only []
      rw [ih]
      constructor
      · rintro ⟨g, hg, hbad⟩
        exact ⟨g, List.mem_cons_of_mem f hg, hbad⟩
      · rintro ⟨g, hg, hbad⟩
        rcases List.mem_cons.mp hg with hg | hg
        · subst hg
          exact absurd hval hbad
        · exact ⟨g, hg, hbad⟩

theorem validate_filters_ok_iff (fs : List IdMaskFilter) :
    validate_filters fs = Except.ok () ↔
      ∀ f ∈ fs, f.id.isExtendedTag = f.mask.isExtendedTag := by
  induction fs with
  | nil => simp [validate_filters]
  | cons f rest ih =>
    unfold validate_filters
    cases hf : validate_filter f with
    | error e =>
      cases e
      simp only []
      constructor
      · intro h
        cases h
      · intro h
        exact absurd ((validate_filter_ok_iff f).mpr (h f (List.mem_cons_self f rest))) (by
          rw [hf]
          intro hcontra
          cases hcontra)
    | ok u =>
      cases u
      have hval : f.id.isExtendedTag = f.mask.isExtendedTag :=
        (validate_filter_ok_iff f).mp hf
      simp only []
      rw [ih]
      constructor
      · intro h g hg
        rcases List.mem_cons.mp hg with hg | hg
        · subst hg
          exact hval
        · exact h g hg
      · intro h g hg
        exact h g (List.mem_cons_of_mem f hg)

/-- C3: `set_filters` fails with `KindMismatch` exactly when some filter in
the list has disagreeing id/mask tags, and on failure the whole world — in
particular the previously installed filter list — is untouched; on success
the interface's filter list becomes exactly the given list while its queue,
its attachment reference, every other interface and every bus are unchanged. -/
theorem set_filters_spec (w : World) (iid : Nat) (filters : List IdMaskFilter) :
    ((set_filters w iid filters).1 = some FilterError.KindMismatch ↔
        ∃ f ∈ filters, f.id.isExtendedTag ≠ f.mask.isExtendedTag)
    ∧ ((set_filters w iid filters).1 = some FilterError.KindMismatch →
        (set_filters w iid filters).2 = w)
    ∧ ((set_filters w iid filters).1 = none →
        ((set_filters w iid filters).2.ifaces iid).filters = filters
        ∧ ((set_filters w iid filters).2.ifaces iid).received_frames
            = (w.ifaces iid).received_frames
        ∧ ((set_filters w iid filters).2.ifaces iid).bus = (w.ifaces iid).bus
        ∧ (∀ j, j ≠ iid → (set_filters w iid filters).2.ifaces j = w.ifaces j)
        ∧ (set_filters w iid filters).2.buses = w.buses) := by
  unfold set_filters
  cases hv : validate_filters filters with
  | error e =>
    cases e
    refine ⟨⟨fun _ => (validate_filters_error_iff filters).mp hv, fun _ => rfl⟩,
      fun _ => rfl, fun h => (by cases h)⟩
  | ok u =>
    cases u
    refine ⟨⟨fun h => (by cases h), fun hbad => ?_⟩, fun h => (by cases h), fun _ => ?_⟩
    · obtain ⟨f, hf, hne⟩ := hbad
      have := (validate_filters_ok_iff filters).mp hv f hf
      exact absurd this hne
    · refine ⟨?_, ?_, ?_, ?_, ?_⟩
      · rw [setIface_ifaces_self]
      · rw [setIface_ifaces_self]
      · rw [setIface_ifaces_self]
      · intro j hj
        exact setIface_ifaces_ne _ _ _ _ hj
      · rfl

theorem attach_ok_state (w : World) (iid bid : Nat) (w' : World)
    (h : attach_to_bus w iid bid = (none, w')) :
    (w'.ifaces iid).bus = some bid
    ∧ (w'.ifaces iid).filters = (w.ifaces iid).filters
    ∧ (w'.ifaces iid).received_frames = (w.ifaces iid).received_frames
    ∧ (w'.buses bid).alive = (w.buses bid).alive
    ∧ (w'.buses bid).interfaces = (w.buses bid).interfaces ++ [iid] := by
  unfold attach_to_bus at h
  cases hu : busUpgrade w (w.ifaces iid).bus with
  | some b =>
    simp only [hu] at h
    injection h with h1 h2
    exact Option.noConfusion h1
  | none =>
    simp only [hu] at h
    injection h with h1 h2
    rw [← h2]
    refine ⟨?_, ?_, ?_, ?_, ?_⟩
    · rw [setIface_ifaces_self]
    · rw [setIface_ifaces_self]
    · rw [setIface_ifaces_self]
    · rw [setIface_buses, setBus_buses_self]
    · rw [setIface_buses, setBus_buses_self]

/-- C4: after a successful attach of an interface to a (live) bus, a second
attach call on the same interface — aimed at any bus — returns
`BusAlreadyAttached` and returns the world unchanged, so in particular every
bus's interface count is unaffected by the failed attempt. -/
theorem attach_second_fails (w : World) (iid bid bid2 : Nat) (w' : World)
    (halive : (w.buses bid).alive = true)
    (h : attach_to_bus w iid bid = (none, w')) :
    attach_to_bus w' iid bid2 = (some MockInterfaceError.BusAlreadyAttached, w')
    ∧ interface_count (attach_to_bus w' iid bid2).2 bid2 = interface_count w' bid2 := by
  obtain ⟨hbus, -, -, halive', -⟩ := attach_ok_state w iid bid w' h
  have hup : busUpgrade w' (w'.ifaces iid).bus = some bid := by
    rw [hbus]
    simp [busUpgrade, halive', halive]
  have hmain : attach_to_bus w' iid bid2 = (some MockInterfaceError.BusAlreadyAttached, w') := by
    unfold attach_to_bus
    simp only [hup]
  refine ⟨hmain, ?_⟩
  rw [hmain]

/-- C5 (amended): while the attached bus is still live, every further attach
call on the interface — to the same or to any other bus — fails with
`BusAlreadyAttached` and changes nothing. -/
theorem attach_fails_while_bus_live (w : World) (iid bid bid2 : Nat)
    (hbus : (w.ifaces iid).bus = some bid)
    (halive : (w.buses bid).alive = true) :
    attach_to_bus w iid bid2 = (some MockInterfaceError.BusAlreadyAttached, w) := by
  have hup : busUpgrade w (w.ifaces iid).bus = some bid := by
    rw [hbus]
    simp [busUpgrade, halive]
  unfold attach_to_bus
  simp only [hup]

/-- C5 counterexample: after a successful first attach, dropping the first
bus lets a second attach on the same interface succeed (it returns no error,
not `BusAlreadyAttached`), and the interface ends up attached to the second
bus. -/
theorem attach_after_drop_succeeds :
    c5Attach1.1 = none
    ∧ c5Attach2.1 = none
    ∧ c5Attach2.1 ≠ some MockInterfaceError.BusAlreadyAttached
    ∧ (c5Attach2.2.ifaces 0).bus = some 1 := by
  refine ⟨rfl, rfl, ?_, rfl⟩
  intro h
  cases h

/-- C6: a freshly constructed unattached interface (`new_unattached`) has an
empty queue and a never-set bus reference, and `transmit` on any interface
whose bus reference was never set fails with `BusNotAttached`, returning the
world unchanged — no queue (its own or any other interface's) is modified. -/
theorem transmit_unattached (w : World) (iid : Nat) (frame : MockFrame)
    (w0 : World) (fs : List IdMaskFilter)
    (h : (w.ifaces iid).bus = none) :
    transmit_arc w iid frame = (some TransmitError.BusNotAttached, w)
    ∧ ((new_unattached w0 fs).2.ifaces (new_unattached w0 fs).1).received_frames = []
    ∧ ((new_unattached w0 fs).2.ifaces (new_unattached w0 fs).1).bus = none := by
  refine ⟨?_, ?_, ?_⟩
  · unfold transmit_arc
    rw [h]
    rfl
  · unfold new_unattached
    rw [setIface_ifaces_self]
  · unfold new_unattached
    rw [setIface_ifaces_self]

/-- C7: `pop_frame` returns the oldest (front) queued frame, or nothing when
the queue is empty, and removes exactly that frame; nothing else about the
interface (filters, attachment) or about any other interface changes, so
frames delivered earlier (appended at the back by `transmit`) are consumed in
FIFO order — with queue `[A, B]` successive pops return `A`, then `B`, then
nothing. -/
theorem pop_frame_fifo (w : World) (iid : Nat) :
    (pop_frame w iid).1 = (w.ifaces iid).received_frames.head?
    ∧ ((pop_frame w iid).2.ifaces iid).received_frames = (w.ifaces iid).received_frames.tail
    ∧ ((pop_frame w iid).2.ifaces iid).filters = (w.ifaces iid).filters
    ∧ ((pop_frame w iid).2.ifaces iid).bus = (w.ifaces iid).bus
    ∧ (∀ j, j ≠ iid → (pop_frame w iid).2.ifaces j = w.ifaces j)
    ∧ (pop_frame w iid).2.buses = w.buses := by
  cases hq : (w.ifaces iid).received_frames with
  | nil =>
    have hpop : pop_frame w iid = ((none : Option MockFrame), w) := by
      unfold pop_frame
      simp only [hq]
    rw [hpop]
    refine ⟨rfl, ?_, rfl, rfl, fun j _ => rfl, rfl⟩
    show (w.ifaces iid).received_frames = ([] : List MockFrame).tail
    rw [hq]
    rfl
  | cons f rest =>
    have hpop : pop_frame w iid = (some f, setIface w iid
        { filters := (w.ifaces iid).filters, bus := (w.ifaces iid).bus,
          received_frames := rest }) := by
      unfold pop_frame
      simp only [hq]
    rw [hpop]
    refine ⟨rfl, ?_, ?_, ?_, ?_, rfl⟩
    · rw [setIface_ifaces_self]
      rfl
    · rw [setIface_ifaces_self]
    · rw [setIface_ifaces_self]
    · intro j hj
      exact setIface_ifaces_ne _ _ _ _ hj

theorem drainFuel_eq_take (n : Nat) :
    ∀ (w : World) (iid : Nat), drainFuel n w iid = (w.ifaces iid).received_frames.take n := by
  induction n with
  | zero =>
    intro w iid
    rfl
  | succ n ih =>
    intro w iid
    unfold drainFuel pop_frame
    cases hq : (w.ifaces iid).received_frames with
    | nil =>
      simp only [hq]
      rfl
    | cons f rest =>
      simp only [hq]
      rw [ih]
      rw [setIface_ifaces_self]
      rfl

/-- C8: `received_frames` returns the entire receive queue oldest-first —
exactly the frames successive `pop_frame` calls would yield, in that order —
and returns the world unchanged: the queue itself, the filter list, the
attachment state and everything else are exactly as before the call. -/
theorem received_frames_snapshot (w : World) (iid : Nat) :
    (received_frames w iid).1 = drain w iid
    ∧ (received_frames w iid).2 = w := by
  constructor
  · unfold received_frames drain
    rw [drainFuel_eq_take, List.take_length]
  · rfl

/-- C9: `MockFrame` construction is total — `new` returns `Some` for every
identifier and every payload (the whole payload is stored, with no length
bound), and `new_remote` returns `Some` for every identifier and every
requested dlc; no 8-byte CAN limit is enforced anywhere. -/
theorem mockFrame_new_total (id : Id) (data : List Nat) (dlc : Nat) :
    MockFrame.new id data = some { frame_type := MockFrameType.Standard data, id := id }
    ∧ MockFrame.new_remote id dlc = some { frame_type := MockFrameType.Remote dlc, id := id } :=
  ⟨rfl, rfl⟩

/-- C10: `add_interface` is atomic — if any filter of the list has
disagreeing id/mask tags it returns `InvalidFilters` with the world (hence
the bus registry and `interface_count`) unchanged and no interface allocated;
otherwise it allocates one fresh interface carrying exactly the given
filters, already attached to this bus, appends it to the registry, and
`interface_count` grows by one. -/
theorem new_unattached_buses (w : World) (fs : List IdMaskFilter) :
    (new_unattached w fs).2.buses = w.buses := rfl

theorem add_interface_atomic (w : World) (bid : Nat) (filters : List IdMaskFilter) :
    ((∃ f ∈ filters, f.id.isExtendedTag ≠ f.mask.isExtendedTag) →
        add_interface w bid filters = (Except.error MockInterfaceError.InvalidFilters, w))
    ∧ ((∀ f ∈ filters, f.id.isExtendedTag = f.mask.isExtendedTag) →
        ∃ iid w2, add_interface w bid filters = (Except.ok iid, w2)
          ∧ (w2.buses bid).interfaces = (w.buses bid).interfaces ++ [iid]
          ∧ (w2.ifaces iid).bus = some bid
          ∧ (w2.ifaces iid).filters = filters
          ∧ (w2.ifaces iid).received_frames = []
          ∧ iid = w.ifaceCount
          ∧ interface_count w2 bid = interface_count w bid + 1) := by
  constructor
  · intro hbad
    have hv : validate_filters filters = Except.error FilterError.KindMismatch :=
      (validate_filters_error_iff filters).mpr hbad
    unfold add_interface
    rw [hv]
  · intro hgood
    have hv : validate_filters filters = Except.ok () :=
      (validate_filters_ok_iff filters).mpr hgood
    have hfresh : ((new_unattached w filters).2.ifaces (new_unattached w filters).1)
        = { filters := filters, bus := none, received_frames := [] } := by
      unfold new_unattached
      rw [setIface_ifaces_self]
    have hup : busUpgrade (new_unattached w filters).2
        ((new_unattached w filters).2.ifaces (new_unattached w filters).1).bus = none := by
      rw [hfresh]
      rfl
    have hatt : attach_to_bus (new_unattached w filters).2 (new_unattached w filters).1 bid
        = (none, setIface
            (setBus (new_unattached w filters).2 bid
              { interfaces := ((new_unattached w filters).2.buses bid).interfaces
                  ++ [(new_unattached w filters).1],
                alive := ((new_unattached w filters).2.buses bid).alive })
            (new_unattached w filters).1
            { filters := ((new_unattached w filters).2.ifaces (new_unattached w filters).1).filters,
              bus := some bid,
              received_frames := ((new_unattached w filters).2.ifaces
                (new_unattached w filters).1).received_frames }) := by
      unfold attach_to_bus
      simp only [hup]
    refine ⟨(new_unattached w filters).1,
      (attach_to_bus (new_unattached w filters).2 (new_unattached w filters).1 bid).2,
      ?_, ?_, ?_, ?_, ?_, rfl, ?_⟩
    · unfold add_interface
      rw [hv]
      simp only [hatt]
    · rw [hatt]
      simp [setIface_buses, setBus_buses_self, new_unattached_buses]
    · rw [hatt]
      simp [setIface_ifaces_self]
    · rw [hatt]
      simp [setIface_ifaces_self, hfresh]
    · rw [hatt]
      simp [setIface_ifaces_self, hfresh]
    · unfold interface_count
      rw [hatt]
      simp [setIface_buses, setBus_buses_self, new_unattached_buses]

/-- Witness for C1: in `wTwo` (two attached interfaces, empty filters), one
transmit puts exactly the frame into interface 1's queue. -/
theorem transmit_fanout_witness :
    (wTwo.buses 0).interfaces.Nodup
    ∧ ((MockBus.transmit wTwo 0 fA).ifaces 1).received_frames = [fA] := by
  refine ⟨by decide, ?_⟩
  exact (transmit_fanout wTwo 0 fA (by decide) 1).trans (by decide)

/-- Witness for C3: an invalid list is rejected leaving the world unchanged;
a valid list is installed verbatim. -/
theorem set_filters_spec_witness :
    (set_filters wAtt 0 [badFilter]).1 = some FilterError.KindMismatch
    ∧ (set_filters wAtt 0 [badFilter]).2 = wAtt
    ∧ ((set_filters wAtt 0 [goodFilter]).2.ifaces 0).filters = [goodFilter] := by
  have hbad : (set_filters wAtt 0 [badFilter]).1 = some FilterError.KindMismatch :=
    (set_filters_spec wAtt 0 [badFilter]).1.mpr
      ⟨badFilter, List.mem_cons_self badFilter [], by decide⟩
  exact ⟨hbad, (set_filters_spec wAtt 0 [badFilter]).2.1 hbad,
    ((set_filters_spec wAtt 0 [goodFilter]).2.2 (by decide)).1⟩

/-- Witness for C4: in `wAtt`, interface 0 attaches to bus 0 once; the second
attach fails with `BusAlreadyAttached` and changes nothing. -/
theorem attach_second_fails_witness :
    (wAtt.buses 0).alive = true
    ∧ attach_to_bus (attach_to_bus wAtt 0 0).2 0 0
        = (some MockInterfaceError.BusAlreadyAttached, (attach_to_bus wAtt 0 0).2) :=
  ⟨by decide, (attach_second_fails wAtt 0 0 0 (attach_to_bus wAtt 0 0).2 (by decide) rfl).1⟩

/-- Witness for the amended C5: while bus 0 is live, attaching interface 0 to
another bus fails with `BusAlreadyAttached`. -/
theorem attach_fails_while_bus_live_witness :
    ((attach_to_bus wAtt 0 0).2.ifaces 0).bus = some 0
    ∧ ((attach_to_bus wAtt 0 0).2.buses 0).alive = true
    ∧ attach_to_bus (attach_to_bus wAtt 0 0).2 0 1
        = (some MockInterfaceError.BusAlreadyAttached, (attach_to_bus wAtt 0 0).2) :=
  ⟨by decide, by decide,
    attach_fails_while_bus_live (attach_to_bus wAtt 0 0).2 0 0 1 (by decide) (by decide)⟩

/-- Witness for C6: the never-attached interface of `wUn` reports
`BusNotAttached` on transmit and the world is unchanged. -/
theorem transmit_unattached_witness :
    (wUn.ifaces 0).bus = none
    ∧ transmit_arc wUn 0 fA = (some TransmitError.BusNotAttached, wUn) :=
  ⟨by decide, (transmit_unattached wUn 0 fA emptyWorld [] (by decide)).1⟩

/-- Witness for C7: with queue `[fA, fB]`, the first pop returns `fA` and
leaves `[fB]`. -/
theorem pop_frame_fifo_witness :
    (pop_frame wQ 0).1 = some fA
    ∧ ((pop_frame wQ 0).2.ifaces 0).received_frames = [fB] := by
  have h := pop_frame_fifo wQ 0
  exact ⟨h.1.trans (by decide), h.2.1.trans (by decide)⟩

/-- Witness for C8: the snapshot of `wQ`'s queue is `[fA, fB]`, oldest first,
and the world is untouched. -/
theorem received_frames_snapshot_witness :
    (received_frames wQ 0).1 = [fA, fB] ∧ (received_frames wQ 0).2 = wQ := by
  have h := received_frames_snapshot wQ 0
  exact ⟨h.1.trans (by decide), h.2⟩

/-- Witness for C9: a 9-byte payload (beyond any CAN dlc limit) is accepted
whole, as is a remote frame requesting 9 bytes. -/
theorem mockFrame_new_total_witness :
    MockFrame.new (Id.Standard 0x123) [1, 2, 3, 4, 5, 6, 7, 8, 9]
        = some { frame_type := MockFrameType.Standard [1, 2, 3, 4, 5, 6, 7, 8, 9],
                 id := Id.Standard 0x123 }
    ∧ MockFrame.new_remote (Id.Extended 0x1ABCDE01) 9
        = some { frame_type := MockFrameType.Remote 9, id := Id.Extended 0x1ABCDE01 } :=
  ⟨(mockFrame_new_total (Id.Standard 0x123) [1, 2, 3, 4, 5, 6, 7, 8, 9] 9).1,
    (mockFrame_new_total (Id.Extended 0x1ABCDE01) [] 9).2⟩

/-- Witness for C10: on `wBus`, adding an interface with an invalid filter
fails atomically; adding one with no filters brings the count to 1. -/
theorem add_interface_atomic_witness :
    add_interface wBus 0 [badFilter] = (Except.error MockInterfaceError.InvalidFilters, wBus)
    ∧ interface_count (add_interface wBus 0 ([] : List IdMaskFilter)).2 0 = 1 := by
  have hbad := (add_interface_atomic wBus 0 [badFilter]).1
      ⟨badFilter, List.mem_cons_self badFilter [], by decide⟩
  obtain ⟨iid, w2, heq, -, -, -, -, -, hcount⟩ :=
    (add_interface_atomic wBus 0 ([] : List IdMaskFilter)).2
      (by intro f hf; exact absurd hf (List.not_mem_nil f))
  refine ⟨hbad, ?_⟩
  rw [heq]
  show interface_count w2 0 = 1
  rw [hcount]
  decide

end CanMock
